import Mathlib

/-!
Shallow embedding of the html2pdf Streamlit application (src/app.py) for
verification of its specification claims.

Conventions of the embedding:
* Byte strings are lists of naturals (each element a byte value 0..255);
  decoded text is a list of Unicode code points, again naturals.
* File paths below the ZIP extraction root are lists of path components.
* Fallible operations return `Option` or `Except`.
* The Playwright render call is embedded as the data it passes to the
  browser (the set_content call and the page.pdf keyword arguments),
  since the claims are about which arguments the code assembles.
-/

namespace Html2Pdf

/-! ## Text decoding (app.py lines 217-225)

The single-file upload path decodes the uploaded bytes with a strict UTF-8
decode and, if that raises UnicodeDecodeError, falls back to
decode("latin-1", errors="ignore").  The ZIP path reads the selected entry
with read_text(encoding="utf-8", errors="ignore"), which drops undecodable
bytes instead of falling back.  We model the CPython UTF-8 codec on byte
lists: the strict decoder rejects the input at the first ill-formed
sequence; the ignoring decoder skips the offending byte and resumes.
Skipping one byte at a time is extensionally the behaviour of CPython's
maximal-subpart skipping, because every byte inside a maximal ill-formed
subpart after its lead is a continuation byte, which on its own is again
ill-formed and is dropped. -/

/-- A byte in the UTF-8 continuation range 0x80..0xBF. -/
def isCont (b : Nat) : Bool := decide (0x80 ≤ b ∧ b ≤ 0xBF)

/-- Valid second byte of a three-byte sequence, given the lead byte.
The leads 0xE0 and 0xED restrict it to exclude overlong forms and
surrogate code points, as CPython does. -/
def cont3fst (b b2 : Nat) : Bool :=
  if b = 0xE0 then decide (0xA0 ≤ b2 ∧ b2 ≤ 0xBF)
  else if b = 0xED then decide (0x80 ≤ b2 ∧ b2 ≤ 0x9F)
  else isCont b2

/-- Valid second byte of a four-byte sequence, given the lead byte.
The leads 0xF0 and 0xF4 restrict it to exclude overlong forms and
code points above 0x10FFFF, as CPython does. -/
def cont4fst (b b2 : Nat) : Bool :=
  if b = 0xF0 then decide (0x90 ≤ b2 ∧ b2 ≤ 0xBF)
  else if b = 0xF4 then decide (0x80 ≤ b2 ∧ b2 ≤ 0x8F)
  else isCont b2

/-- Code point of a well-formed two-byte sequence. -/
def cp2 (b b2 : Nat) : Nat := (b - 0xC0) * 0x40 + (b2 - 0x80)

/-- Code point of a well-formed three-byte sequence. -/
def cp3 (b b2 b3 : Nat) : Nat :=
  (b - 0xE0) * 0x1000 + (b2 - 0x80) * 0x40 + (b3 - 0x80)

/-- Code point of a well-formed four-byte sequence. -/
def cp4 (b b2 b3 b4 : Nat) : Nat :=
  (b - 0xF0) * 0x40000 + (b2 - 0x80) * 0x1000 + (b3 - 0x80) * 0x40 + (b4 - 0x80)

/-- Attempt to read one UTF-8 sequence whose lead byte is `b` and whose
following bytes are `r`.  On success, return the decoded code point and the
bytes after the sequence; return `none` when the bytes do not start with a
well-formed sequence (ill-formed lead, wrong continuation, overlong form,
surrogate, out-of-range, or truncation). -/
def utf8SeqSplit (b : Nat) (r : List Nat) : Option (Nat × List Nat) :=
  if b < 0x80 then some (b, r)
  else if b < 0xC2 then none
  else if b < 0xE0 then
    match r with
    | b2 :: r2 => if isCont b2 then some (cp2 b b2, r2) else none
    | [] => none
  else if b < 0xF0 then
    match r with
    | b2 :: b3 :: r3 =>
      if cont3fst b b2 && isCont b3 then some (cp3 b b2 b3, r3) else none
    | _ => none
  else if b < 0xF5 then
    match r with
    | b2 :: b3 :: b4 :: r4 =>
      if cont4fst b b2 && isCont b3 && isCont b4 then
        some (cp4 b b2 b3 b4, r4)
      else none
    | _ => none
  else none

/-- Strict UTF-8 decode with explicit recursion fuel: every decoding step
consumes at least one byte, so fuel equal to the byte count is always
enough and the out-of-fuel branch is unreachable from `utf8DecodeStrict`. -/
def utf8DecodeStrictAux : Nat → List Nat → Option (List Nat)
  | _, [] => some []
  | 0, _ :: _ => none
  | fuel + 1, b :: r =>
    match utf8SeqSplit b r with
    | some (c, r2) => (utf8DecodeStrictAux fuel r2).map (c :: ·)
    | none => none

/-- Strict UTF-8 decode: bytes.decode("utf-8").  Returns `none` when any
ill-formed sequence occurs (the Python call raises UnicodeDecodeError). -/
def utf8DecodeStrict (bs : List Nat) : Option (List Nat) :=
  utf8DecodeStrictAux bs.length bs

/-- Ignoring UTF-8 decode with fuel, see `utf8DecodeStrictAux`.  On an
ill-formed sequence the offending byte is dropped and decoding resumes at
the next byte.  Dropping one byte at a time is extensionally CPython's
maximal-subpart skipping: every byte of a maximal ill-formed subpart after
its lead is a continuation byte, which on its own is again ill-formed and
is dropped by a later step. -/
def utf8DecodeIgnoreAux : Nat → List Nat → List Nat
  | _, [] => []
  | 0, _ :: _ => []
  | fuel + 1, b :: r =>
    match utf8SeqSplit b r with
    | some (c, r2) => c :: utf8DecodeIgnoreAux fuel r2
    | none => utf8DecodeIgnoreAux fuel r

/-- Ignoring UTF-8 decode: bytes.decode("utf-8", errors="ignore") as used
by read_text on the ZIP path.  Ill-formed bytes are dropped and decoding
resumes. -/
def utf8DecodeIgnore (bs : List Nat) : List Nat :=
  utf8DecodeIgnoreAux bs.length bs

/-- Latin-1 decode with errors="ignore": every byte 0..255 maps to the code
point of the same value, so no byte can be undecodable and nothing is ever
dropped. -/
def latin1Decode (bs : List Nat) : List Nat := bs

/-- Single-file upload decode (app.py lines 221-225): strict UTF-8 first,
Latin-1 fallback on UnicodeDecodeError.  Returns `none` only if an
exception would escape, which the fallback prevents. -/
def singleFileResolve (bs : List Nat) : Option (List Nat) :=
  match utf8DecodeStrict bs with
  | some t => some t
  | none => some (latin1Decode bs)

/-- The text produced by the single-file path. -/
def singleFileDecode (bs : List Nat) : List Nat :=
  match utf8DecodeStrict bs with
  | some t => t
  | none => latin1Decode bs

/-- The text produced by the ZIP path for the selected entry
(app.py line 217: entry.read_text(encoding="utf-8", errors="ignore")). -/
def archiveDecode (bs : List Nat) : List Nat := utf8DecodeIgnore bs

/-! ## ZIP entry resolution (app.py lines 22-33, 206-218)

find_html_in_zip extracts the archive into a fresh mkdtemp directory and
picks the entry to render.  We model the extracted tree as the list of its
files, each file a list of path components below the extraction root, in
the enumeration order the filesystem happens to produce.  Name matching
for rglob("*.html") is: the final component ends with ".html" (fnmatch
star may match the empty string). -/

/-- Final path component of an extracted file. -/
def baseName (p : List String) : String := p.getLast?.getD ""

/-- Whether a file name matches the glob star followed by `ext`
(that is, the name ends with `ext`). -/
def nameMatchesExt (p : List String) (ext : String) : Bool :=
  decide (ext.data <:+ (baseName p).data)

/-- The entry-selection logic of find_html_in_zip on the extracted tree:
prefer a root-level index.html, else the first file of the rglob(".html")
listing followed by the rglob(".htm") listing, else none. -/
def find_html_in_zip (files : List (List String)) : Option (List String) :=
  if ["index.html"] ∈ files then some ["index.html"]
  else
    match files.filter (fun p => nameMatchesExt p ".html") ++
          files.filter (fun p => nameMatchesExt p ".htm") with
    | [] => none
    | p :: _ => some p

/-- Error kinds a conversion can end with. -/
inductive ConvError
  | noEntryPoint
  | timeout
  | fault
deriving DecidableEq, Repr

/-- The entry check at the conversion boundary (app.py lines 212-215):
a missing entry aborts the conversion with the no-entry-point error. -/
def zip_entry_check (files : List (List String)) :
    Except ConvError (List String) :=
  match find_html_in_zip files with
  | none => Except.error ConvError.noEntryPoint
  | some e => Except.ok e

/-! ## Paper geometry and page.pdf argument assembly (app.py lines 36-47,
87-107, 244-245)

Python truthiness drives the assembly: None and the empty string are
falsy, every other string is truthy. -/

/-- Python truthiness of an Optional[str] value. -/
def optTruthy : Option String → Bool
  | none => false
  | some s => !(s == "")

/-- The Python idiom (s or "").strip() or None applied to an
Optional[str]: `none` when the stripped text is empty, else the stripped
text. -/
def pyStripOrNone (o : Option String) : Option String :=
  if (o.getD "").trim == "" then none else some (o.getD "").trim

/-- The Python idiom s.strip() or None on a plain string, as used for the
header and footer text areas at app.py lines 244-245. -/
def stripOrNone (s : String) : Option String :=
  if s.trim == "" then none else some s.trim

/-- normalize_paper (app.py lines 36-47): returns (format, width, height)
for page.pdf.  The Custom choice passes the stripped custom fields (or
None when blank); every other choice passes itself as the format with no
width or height. -/
def normalize_paper (paper_choice : String) (custom_w custom_h : Option String) :
    Option String × Option String × Option String :=
  if paper_choice == "Custom" then
    (none, pyStripOrNone custom_w, pyStripOrNone custom_h)
  else
    (some paper_choice, none, none)

/-- The four page margins (app.py line 230), strings with units. -/
structure Margins where
  top : String
  right : String
  bottom : String
  left : String
deriving DecidableEq, Repr

/-- The keyword arguments assembled for page.pdf (app.py lines 87-107).
Optional fields are `none` exactly when the corresponding key is absent
from the pdf_args dict. -/
structure PdfArgs where
  print_background : Bool
  landscape : Bool
  scale : Rat
  margin : Margins
  display_header_footer : Bool
  prefer_css_page_size : Bool
  header_template : Option String
  footer_template : Option String
  format : Option String
  width : Option String
  height : Option String
deriving DecidableEq, Repr

/-- Assembly of pdf_args exactly as render_pdf does it: the base dict of
lines 87-94, then the conditional inserts of lines 96-107 (header and
footer when truthy; format when truthy, otherwise width and height each
when truthy). -/
def render_pdf_args (format_name width height : Option String)
    (margins : Margins) (landscape print_background : Bool) (scale : Rat)
    (header_template footer_template : Option String)
    (prefer_css_page_size : Bool) : PdfArgs :=
  { print_background := print_background
    landscape := landscape
    scale := scale
    margin := margins
    display_header_footer := optTruthy header_template || optTruthy footer_template
    prefer_css_page_size := prefer_css_page_size
    header_template := if optTruthy header_template then header_template else none
    footer_template := if optTruthy footer_template then footer_template else none
    format := if optTruthy format_name then format_name else none
    width := if optTruthy format_name then none
             else if optTruthy width then width else none
    height := if optTruthy format_name then none
              else if optTruthy height then height else none }

/-- The geometry assembly as the generate handler composes it (app.py
line 229 feeding lines 234-248): normalize_paper output threaded into the
pdf_args assembly of render_pdf. -/
def assembled_args (paper_choice : String) (custom_w custom_h : Option String)
    (margins : Margins) (landscape print_background : Bool) (scale : Rat)
    (header_template footer_template : Option String)
    (prefer_css_page_size : Bool) : PdfArgs :=
  let fwh := normalize_paper paper_choice custom_w custom_h
  render_pdf_args fwh.1 fwh.2.1 fwh.2.2 margins landscape print_background
    scale header_template footer_template prefer_css_page_size

/-! ## The render call (app.py lines 50-118)

render_pdf is embedded as the data it hands to the browser: the arguments
of the page.set_content call (line 71), the fact that the margin-reset
style tag is added (lines 76-84), and the page.pdf keyword arguments.
The finally block (lines 112-118) wraps page.close, context.close and
browser.close in a single try whose handler swallows every exception, so
a close that raises skips the remaining closes and the primary outcome is
returned or re-raised unchanged. -/

/-- The arguments of the page.set_content call at line 71.  The source
passes only the HTML text, the wait_until mode and the timeout. -/
structure SetContentCall where
  html : String
  wait_until : String
  timeout : Nat
deriving DecidableEq, Repr

/-- Everything render_pdf feeds to the browser before collecting the PDF
bytes. -/
structure RenderPlan where
  setContent : SetContentCall
  marginResetStyleTag : Bool
  pdfArgs : PdfArgs
deriving DecidableEq, Repr

/-- The render_pdf body (app.py lines 50-110) as the plan of browser
calls it performs.  Note that the base_url parameter is accepted (line
52) but appears nowhere in the body. -/
def render_pdf (html : String) (base_url : Option String)
    (format_name width height : Option String) (margins : Margins)
    (landscape print_background : Bool) (scale : Rat)
    (header_template footer_template : Option String)
    (prefer_css_page_size : Bool) (wait_timeout_ms : Nat) : RenderPlan :=
  { setContent :=
      { html := html, wait_until := "networkidle", timeout := wait_timeout_ms }
    marginResetStyleTag := true
    pdfArgs := render_pdf_args format_name width height margins landscape
      print_background scale header_template footer_template
      prefer_css_page_size }

/-- The browser-side resources render_pdf holds. -/
inductive Res
  | page
  | context
  | browser
deriving DecidableEq, Repr

/-- Playwright faults the try body can raise (line 249-254 distinguishes
the timeout from every other exception). -/
inductive PWError
  | timeout
  | other
deriving DecidableEq, Repr

/-- The resources actually closed by the finally block (lines 112-118),
given which of the three close calls would raise.  The single
try/except-pass means the first raising close aborts the rest. -/
def render_cleanup (page_close_fails context_close_fails browser_close_fails : Bool) :
    List Res :=
  if page_close_fails then []
  else if context_close_fails then [Res.page]
  else if browser_close_fails then [Res.page, Res.context]
  else [Res.page, Res.context, Res.browser]

/-- One run of render_pdf around the finally block: the primary outcome of
the try body (PDF bytes or a raised error) together with the resources the
finally block managed to close.  The except-pass handler guarantees the
primary outcome is never replaced by a cleanup failure. -/
def render_run (primary : Except PWError (List Nat))
    (page_close_fails context_close_fails browser_close_fails : Bool) :
    Except PWError (List Nat) × List Res :=
  (primary, render_cleanup page_close_fails context_close_fails browser_close_fails)

/-! ## The ZIP conversion handler (app.py lines 194-289)

For a ZIP upload the handler writes the upload to a mkstemp file,
registers that file in cleanup_paths (line 210), calls find_html_in_zip
(which makes a fresh mkdtemp extraction directory, line 24, that is never
registered anywhere), renders, and in the finally block (lines 284-289)
os.remove-s exactly the cleanup_paths entries.  We track the scratch
paths created while handling the request and which of them survive the
handler. -/

/-- The mkstemp temporary copy of the uploaded archive (line 207). -/
def tmpZipPath : String := "html2pdf_tmp.zip"

/-- The mkdtemp extraction directory made inside find_html_in_zip
(line 24). -/
def extractDirPath : String := "html2pdf_zip_extract"

/-- One run of the generate handler on a ZIP upload, parameterised by the
extracted file tree and by the outcome the render call would have.
Returns the conversion outcome and the scratch paths still on disk after
the finally block ran. -/
def run_zip_conversion (zipFiles : List (List String))
    (render : Except PWError (List Nat)) :
    Except ConvError (List Nat) × List String :=
  let cleanup_paths : List String := [tmpZipPath]
  let scratch : List String := [tmpZipPath, extractDirPath]
  let outcome : Except ConvError (List Nat) :=
    match find_html_in_zip zipFiles with
    | none => Except.error ConvError.noEntryPoint
    | some _ =>
      match render with
      | Except.ok pdf => Except.ok pdf
      | Except.error PWError.timeout => Except.error ConvError.timeout
      | Except.error PWError.other => Except.error ConvError.fault
  (outcome, scratch.filter (fun p => p ∉ cleanup_paths))

/-! ## Helper lemmas -/

/-- When the strict decoder succeeds, the ignoring decoder (same fuel)
produces the same code points: no byte is dropped on well-formed input. -/
theorem ignoreAux_eq_of_strictAux :
    ∀ (fuel : Nat) (bs l : List Nat),
      utf8DecodeStrictAux fuel bs = some l → utf8DecodeIgnoreAux fuel bs = l := by
  intro fuel
  induction fuel with
  | zero =>
      intro bs l hs
      cases bs with
      | nil =>
          simp [utf8DecodeStrictAux] at hs
          simp [utf8DecodeIgnoreAux, ← hs]
      | cons b r => simp [utf8DecodeStrictAux] at hs
  | succ fuel ih =>
      intro bs l hs
      cases bs with
      | nil =>
          simp [utf8DecodeStrictAux] at hs
          simp [utf8DecodeIgnoreAux, ← hs]
      | cons b r =>
          cases hsp : utf8SeqSplit b r with
          | none =>
              rw [utf8DecodeStrictAux, hsp] at hs
              simp at hs
          | some cr =>
              obtain ⟨c, r2⟩ := cr
              rw [utf8DecodeStrictAux, hsp] at hs
              rw [utf8DecodeIgnoreAux, hsp]
              simp at hs ⊢
              obtain ⟨t, ht, hl⟩ := hs
              rw [ih r2 t ht, hl]

/-- Top-level version of `ignoreAux_eq_of_strictAux`. -/
theorem utf8DecodeIgnore_eq_of_strict (bs l : List Nat)
    (h : utf8DecodeStrict bs = some l) : utf8DecodeIgnore bs = l :=
  ignoreAux_eq_of_strictAux bs.length bs l h

@[simp] theorem optTruthy_none : optTruthy none = false := rfl

@[simp] theorem optTruthy_some (s : String) :
    optTruthy (some s) = !(s == "") := rfl

/-- Re-testing the truthiness of an already stripped-or-None value is the
identity: pyStripOrNone never returns some of the empty string. -/
theorem if_optTruthy_pyStrip (o : Option String) :
    (if optTruthy (pyStripOrNone o) then pyStripOrNone o else none)
      = pyStripOrNone o := by
  by_cases h : (o.getD "").trim = ""
  · simp [pyStripOrNone, h]
  · simp [pyStripOrNone, h]

/-- A name matching the html glob cannot also match the htm glob: its last
character is the letter l, not the letter m. -/
theorem ext_html_not_htm (p : List String)
    (h : nameMatchesExt p ".html" = true) :
    nameMatchesExt p ".htm" = false := by
  unfold nameMatchesExt at h ⊢
  rw [decide_eq_true_iff] at h
  by_contra hcon
  rw [Bool.not_eq_false, decide_eq_true_iff] at hcon
  obtain ⟨t1, ht1⟩ := h
  obtain ⟨t2, ht2⟩ := hcon
  have h1 : ((baseName p).data).getLast? = some 'l' := by
    rw [← ht1, List.getLast?_append_of_ne_nil]
    · rfl
    · decide
  have h2 : ((baseName p).data).getLast? = some 'm' := by
    rw [← ht2, List.getLast?_append_of_ne_nil]
    · rfl
    · decide
  rw [h1] at h2
  exact absurd h2 (by decide)

/-! ## Claim theorems -/

/-- C1: the render operation does not use the supplied base_url at all.
For every pair of runs of render_pdf that differ only in the base_url
argument, every browser call it performs, in particular the set_content
call that loads the HTML, is identical — so the base_url supplied to the
render operation does NOT affect how the content is loaded, contrary to
the claim.  This is the code-bug evaluation: the parameter is accepted at
line 52 and never used. -/
theorem render_pdf_ignores_base_url (html : String) (u1 u2 : Option String)
    (format_name width height : Option String) (margins : Margins)
    (landscape print_background : Bool) (scale : Rat)
    (header_template footer_template : Option String)
    (prefer_css_page_size : Bool) (wait_timeout_ms : Nat) :
    render_pdf html u1 format_name width height margins landscape
        print_background scale header_template footer_template
        prefer_css_page_size wait_timeout_ms
      = render_pdf html u2 format_name width height margins landscape
        print_background scale header_template footer_template
        prefer_css_page_size wait_timeout_ms := rfl

/-- C2: code-bug evaluation.  On every exit path of the ZIP conversion
(success, missing entry point, timeout, other fault) the finally block
removes the temporary copy of the uploaded archive but the extraction
directory created by find_html_in_zip survives the handler, because it is
never added to cleanup_paths.  The claim that all scratch storage is
removed is violated by every run. -/
theorem zip_conversion_leaks_extract_dir (zipFiles : List (List String))
    (render : Except PWError (List Nat)) :
    (run_zip_conversion zipFiles render).2 = [extractDirPath] := by
  simp [run_zip_conversion, tmpZipPath, extractDirPath]

/-- C3: counterexample.  The two decode paths do not follow the same
policy: on the single byte 0xFF, the ZIP path (UTF-8 with undecodable
bytes dropped) yields the empty text while the single-file path (strict
UTF-8 then Latin-1) yields the code point 0xFF, so the two paths are not
equal on equal input bytes. -/
theorem archive_decode_differs_from_single_file :
    archiveDecode [0xFF] = [] ∧ singleFileDecode [0xFF] = [0xFF] ∧
      archiveDecode [0xFF] ≠ singleFileDecode [0xFF] := by decide

/-- C3 (amended): the archive path decodes with UTF-8 dropping
undecodable bytes rather than with the single-file fallback policy; the
two paths yield equal text on exactly those inputs that decode as strict
UTF-8. -/
theorem archive_and_single_file_decode_agree_on_utf8 (bs l : List Nat)
    (h : utf8DecodeStrict bs = some l) :
    archiveDecode bs = l ∧ singleFileDecode bs = l := by
  constructor
  · exact utf8DecodeIgnore_eq_of_strict bs l h
  · unfold singleFileDecode
    rw [h]

/-- C3 witness: the amended agreement evaluated on the UTF-8 bytes of
the two-character text with code points 104 and 233. -/
theorem archive_and_single_file_decode_agree_on_utf8_witness :
    archiveDecode [0x68, 0xC3, 0xA9] = [104, 233] ∧
      singleFileDecode [0x68, 0xC3, 0xA9] = [104, 233] :=
  archive_and_single_file_decode_agree_on_utf8 [0x68, 0xC3, 0xA9] [104, 233]
    (by decide)

/-- C9: resolving a single uploaded HTML file to text never raises and
never produces absent content: for every byte sequence, including those
not decodable as strict UTF-8, the decode step returns the text computed
by the strict-UTF-8-then-Latin-1 policy. -/
theorem single_file_resolve_total (bs : List Nat) :
    singleFileResolve bs = some (singleFileDecode bs) := by
  unfold singleFileResolve singleFileDecode
  cases utf8DecodeStrict bs <;> rfl


/-- C4: for every paper choice and custom width and height strings, the
assembled page.pdf arguments never contain both a format preset and
explicit width or height; a named (non-Custom, non-empty) preset yields
the preset and no width or height; the Custom choice yields no preset and
width or height exactly for the non-blank-after-trim custom fields, hence
neither when both are blank. -/
theorem paper_preset_and_custom_geometry_exclusive (paper_choice : String)
    (custom_w custom_h : Option String) (margins : Margins)
    (landscape print_background : Bool) (scale : Rat)
    (header_template footer_template : Option String)
    (prefer_css_page_size : Bool) :
    ¬ ((assembled_args paper_choice custom_w custom_h margins landscape
          print_background scale header_template footer_template
          prefer_css_page_size).format.isSome ∧
        ((assembled_args paper_choice custom_w custom_h margins landscape
          print_background scale header_template footer_template
          prefer_css_page_size).width.isSome ∨
         (assembled_args paper_choice custom_w custom_h margins landscape
          print_background scale header_template footer_template
          prefer_css_page_size).height.isSome)) ∧
    (paper_choice ≠ "Custom" → paper_choice ≠ "" →
      (assembled_args paper_choice custom_w custom_h margins landscape
          print_background scale header_template footer_template
          prefer_css_page_size).format = some paper_choice ∧
      (assembled_args paper_choice custom_w custom_h margins landscape
          print_background scale header_template footer_template
          prefer_css_page_size).width = none ∧
      (assembled_args paper_choice custom_w custom_h margins landscape
          print_background scale header_template footer_template
          prefer_css_page_size).height = none) ∧
    (paper_choice = "Custom" →
      (assembled_args paper_choice custom_w custom_h margins landscape
          print_background scale header_template footer_template
          prefer_css_page_size).format = none ∧
      (assembled_args paper_choice custom_w custom_h margins landscape
          print_background scale header_template footer_template
          prefer_css_page_size).width = pyStripOrNone custom_w ∧
      (assembled_args paper_choice custom_w custom_h margins landscape
          print_background scale header_template footer_template
          prefer_css_page_size).height = pyStripOrNone custom_h) := by
  by_cases hc : paper_choice = "Custom"
  · subst hc
    refine ⟨?_, fun h => absurd rfl h, fun _ => ⟨?_, ?_, ?_⟩⟩
    · simp [assembled_args, normalize_paper, render_pdf_args]
    · simp [assembled_args, normalize_paper, render_pdf_args]
    · simp [assembled_args, normalize_paper, render_pdf_args,
        if_optTruthy_pyStrip]
    · simp [assembled_args, normalize_paper, render_pdf_args,
        if_optTruthy_pyStrip]
  · have hb : (paper_choice == "Custom") = false := by simpa using hc
    refine ⟨?_, fun _ hne => ⟨?_, ?_, ?_⟩, fun h => absurd h hc⟩
    · simp [assembled_args, normalize_paper, render_pdf_args, hb]
    · simp [assembled_args, normalize_paper, render_pdf_args, hb, hne]
    · simp [assembled_args, normalize_paper, render_pdf_args, hb]
    · simp [assembled_args, normalize_paper, render_pdf_args, hb]

/-- C4 witness: the geometry theorem evaluated at the preset A4 and at the
Custom choice with a 210mm width and a blank height. -/
theorem paper_preset_and_custom_geometry_exclusive_witness :
    ((assembled_args "A4" none none ⟨"15mm", "15mm", "15mm", "15mm"⟩ false true
        1 none none true).format = some "A4" ∧
      (assembled_args "A4" none none ⟨"15mm", "15mm", "15mm", "15mm"⟩ false true
        1 none none true).width = none ∧
      (assembled_args "A4" none none ⟨"15mm", "15mm", "15mm", "15mm"⟩ false true
        1 none none true).height = none) ∧
    ((assembled_args "Custom" (some "210mm") none
        ⟨"15mm", "15mm", "15mm", "15mm"⟩ false true 1 none none true).format = none ∧
      (assembled_args "Custom" (some "210mm") none
        ⟨"15mm", "15mm", "15mm", "15mm"⟩ false true 1 none none true).width
          = pyStripOrNone (some "210mm") ∧
      (assembled_args "Custom" (some "210mm") none
        ⟨"15mm", "15mm", "15mm", "15mm"⟩ false true 1 none none true).height
          = pyStripOrNone none) :=
  ⟨(paper_preset_and_custom_geometry_exclusive "A4" none none
      ⟨"15mm", "15mm", "15mm", "15mm"⟩ false true 1 none none true).2.1
      (by decide) (by decide),
    (paper_preset_and_custom_geometry_exclusive "Custom" (some "210mm") none
      ⟨"15mm", "15mm", "15mm", "15mm"⟩ false true 1 none none true).2.2 rfl⟩

/-- C5: for all header and footer text-area contents, the assembled
display_header_footer flag is exactly the presence of either template
(false iff both are blank after stripping), and each template key is
present in the arguments exactly when that template is non-blank, holding
its stripped text. -/
theorem header_footer_flag_matches_presence (hs fs : String)
    (format_name width height : Option String) (margins : Margins)
    (landscape print_background : Bool) (scale : Rat)
    (prefer_css_page_size : Bool) :
    (render_pdf_args format_name width height margins landscape
      print_background scale (stripOrNone hs) (stripOrNone fs)
      prefer_css_page_size).display_header_footer
        = (!(hs.trim == "") || !(fs.trim == "")) ∧
    (render_pdf_args format_name width height margins landscape
      print_background scale (stripOrNone hs) (stripOrNone fs)
      prefer_css_page_size).header_template = stripOrNone hs ∧
    (render_pdf_args format_name width height margins landscape
      print_background scale (stripOrNone hs) (stripOrNone fs)
      prefer_css_page_size).footer_template = stripOrNone fs := by
  by_cases h1 : hs.trim = "" <;> by_cases h2 : fs.trim = "" <;>
    simp [render_pdf_args, stripOrNone, h1, h2]

/-- C6 counterexample: on a run whose primary outcome is a successful PDF
but whose page.close raises, the finally block closes nothing at all — in
particular the browser instance is not released — so the claim that page,
context and browser are all released on every exit path is false.  (The
primary result is still preserved.) -/
theorem cleanup_failure_skips_remaining_closes :
    (render_run (Except.ok ([] : List Nat)) true false false).1
        = Except.ok ([] : List Nat) ∧
      (render_run (Except.ok ([] : List Nat)) true false false).2 = [] ∧
      Res.browser ∉ (render_run (Except.ok ([] : List Nat)) true false false).2 :=
  ⟨rfl, rfl, by decide⟩

/-- C6 (amended): on every exit path the three releases are attempted in
the order page, context, browser; the resources actually released always
form a prefix of that order (a failing close skips the remaining ones);
any cleanup failure is suppressed and never masks or replaces the primary
result or error; and when no close fails, all three are released. -/
theorem render_cleanup_ordered_and_nonmasking
    (primary : Except PWError (List Nat)) (pf cf bf : Bool) :
    (render_run primary pf cf bf).1 = primary ∧
    (∃ k, (render_run primary pf cf bf).2
      = [Res.page, Res.context, Res.browser].take k) ∧
    (pf = false → cf = false → bf = false →
      (render_run primary pf cf bf).2 = [Res.page, Res.context, Res.browser]) := by
  refine ⟨rfl, ?_, ?_⟩
  · cases pf
    · cases cf
      · cases bf
        · exact ⟨3, rfl⟩
        · exact ⟨2, rfl⟩
      · exact ⟨1, rfl⟩
    · exact ⟨0, rfl⟩
  · intro h1 h2 h3
    subst h1; subst h2; subst h3
    rfl

/-- C6 witness: a timed-out run with no cleanup failure keeps its timeout
error and releases all three resources in order. -/
theorem render_cleanup_ordered_and_nonmasking_witness :
    (render_run (Except.error PWError.timeout) false false false).1
        = Except.error PWError.timeout ∧
      (render_run (Except.error PWError.timeout) false false false).2
        = [Res.page, Res.context, Res.browser] :=
  ⟨(render_cleanup_ordered_and_nonmasking (Except.error PWError.timeout)
      false false false).1,
    (render_cleanup_ordered_and_nonmasking (Except.error PWError.timeout)
      false false false).2.2 rfl rfl rfl⟩

/-- C7: whenever the extracted tree contains an entry named index.html at
the extraction root, the resolver selects it, whatever the rest of the
tree and whatever the enumeration order. -/
theorem index_html_always_selected (files : List (List String))
    (h : ["index.html"] ∈ files) :
    find_html_in_zip files = some ["index.html"] := by
  simp [find_html_in_zip, h]

/-- C7 witness: index.html is selected even when listed after another
html file. -/
theorem index_html_always_selected_witness :
    find_html_in_zip [["other.html"], ["index.html"], ["a.htm"]]
      = some ["index.html"] :=
  index_html_always_selected [["other.html"], ["index.html"], ["a.htm"]]
    (by decide)

/-- C8: with no root index.html, the resolver selects some entry matching
the html or htm glob whenever at least one exists, and the conversion
fails with the no-entry-point error exactly when no such entry exists. -/
theorem fallback_selects_html_entry_iff_exists (files : List (List String))
    (hidx : ["index.html"] ∉ files) :
    ((∃ p, p ∈ files ∧
        (nameMatchesExt p ".html" = true ∨ nameMatchesExt p ".htm" = true)) →
      ∃ q, find_html_in_zip files = some q ∧ q ∈ files ∧
        (nameMatchesExt q ".html" = true ∨ nameMatchesExt q ".htm" = true)) ∧
    (zip_entry_check files = Except.error ConvError.noEntryPoint ↔
      ¬ ∃ p, p ∈ files ∧
        (nameMatchesExt p ".html" = true ∨ nameMatchesExt p ".htm" = true)) := by
  have hfind : find_html_in_zip files =
      match files.filter (fun p => nameMatchesExt p ".html") ++
            files.filter (fun p => nameMatchesExt p ".htm") with
      | [] => none
      | p :: _ => some p := by
    simp [find_html_in_zip, hidx]
  cases hL : files.filter (fun p => nameMatchesExt p ".html") ++
      files.filter (fun p => nameMatchesExt p ".htm") with
  | nil =>
      rw [hL] at hfind
      simp only [] at hfind
      have hempty : ∀ p ∈ files,
          ¬(nameMatchesExt p ".html" = true ∨ nameMatchesExt p ".htm" = true) := by
        rw [List.append_eq_nil] at hL
        obtain ⟨ha, hb⟩ := hL
        rw [List.filter_eq_nil_iff] at ha hb
        intro p hp
        push_neg
        exact ⟨ha p hp, hb p hp⟩
      constructor
      · rintro ⟨p, hp, hext⟩
        exact absurd hext (hempty p hp)
      · constructor
        · rintro _ ⟨p, hp, hext⟩
          exact absurd hext (hempty p hp)
        · intro _
          simp [zip_entry_check, hfind]
  | cons q t =>
      rw [hL] at hfind
      simp only [] at hfind
      have hqmem : q ∈ files.filter (fun p => nameMatchesExt p ".html") ++
          files.filter (fun p => nameMatchesExt p ".htm") := by
        rw [hL]; exact List.mem_cons_self _ _
      have hq : q ∈ files ∧
          (nameMatchesExt q ".html" = true ∨ nameMatchesExt q ".htm" = true) := by
        rcases List.mem_append.mp hqmem with hm | hm
        · exact ⟨(List.mem_filter.mp hm).1,
            Or.inl (by simpa using (List.mem_filter.mp hm).2)⟩
        · exact ⟨(List.mem_filter.mp hm).1,
            Or.inr (by simpa using (List.mem_filter.mp hm).2)⟩
      constructor
      · intro _
        exact ⟨q, hfind, hq.1, hq.2⟩
      · constructor
        · intro hz
          rw [zip_entry_check, hfind] at hz
          simp at hz
        · intro hn
          exact absurd ⟨q, hq.1, hq.2⟩ hn

/-- C8 witness: a tree with one nested htm file yields a selection, and a
tree with no html-like file yields the no-entry-point error. -/
theorem fallback_selects_html_entry_iff_exists_witness :
    (∃ q, find_html_in_zip [["readme.txt"], ["docs", "page.htm"]] = some q ∧
      q ∈ [["readme.txt"], ["docs", "page.htm"]] ∧
      (nameMatchesExt q ".html" = true ∨ nameMatchesExt q ".htm" = true)) ∧
    zip_entry_check [["readme.txt"]] = Except.error ConvError.noEntryPoint := by
  constructor
  · exact (fallback_selects_html_entry_iff_exists
      [["readme.txt"], ["docs", "page.htm"]] (by decide)).1
      ⟨["docs", "page.htm"], by decide, Or.inr (by decide)⟩
  · exact (fallback_selects_html_entry_iff_exists [["readme.txt"]]
      (by decide)).2.mpr (by decide)

/-- C10: with no root index.html but at least one entry matching the html
glob, the selected entry always matches the html glob and never the htm
glob, whatever the enumeration order, because all html candidates are
listed before all htm candidates. -/
theorem html_candidates_before_htm (files : List (List String))
    (hidx : ["index.html"] ∉ files)
    (h : ∃ p, p ∈ files ∧ nameMatchesExt p ".html" = true) :
    ∃ q, find_html_in_zip files = some q ∧ nameMatchesExt q ".html" = true ∧
      nameMatchesExt q ".htm" = false := by
  obtain ⟨p, hp, hext⟩ := h
  have hmem : p ∈ files.filter (fun x => nameMatchesExt x ".html") :=
    List.mem_filter.mpr ⟨hp, by simpa using hext⟩
  cases hF : files.filter (fun x => nameMatchesExt x ".html") with
  | nil => rw [hF] at hmem; cases hmem
  | cons q t =>
      have hqmem : q ∈ files.filter (fun x => nameMatchesExt x ".html") := by
        rw [hF]; exact List.mem_cons_self _ _
      have hq : nameMatchesExt q ".html" = true := by
        simpa using (List.mem_filter.mp hqmem).2
      refine ⟨q, ?_, hq, ext_html_not_htm q hq⟩
      simp [find_html_in_zip, hidx, hF]

/-- C10 witness: with an htm file enumerated before an html file, the
html file is still the one selected. -/
theorem html_candidates_before_htm_witness :
    ∃ q, find_html_in_zip [["z", "a.htm"], ["b.html"]] = some q ∧
      nameMatchesExt q ".html" = true ∧ nameMatchesExt q ".htm" = false :=
  html_candidates_before_htm [["z", "a.htm"], ["b.html"]] (by decide)
    ⟨["b.html"], by decide, by decide⟩

end Html2Pdf
